import Mathlib

/-!
# Verification of the fakeFetch async-simulation demos

Shallow embedding of the promise/timer demos of
`src/vanilla-javascript/Phase2/main.js` (mirrored in `src/unnamed/part_000`):

* `fakeFetch(success = true)` returns a `Promise` and schedules one
  `setTimeout` callback for 1000 ms which runs
  `success ? resolve("Data loaded!") : reject("Fetch failed.")`;
* `runAsyncTask` / `errorHandlingAsyncDemo`, the async/await consumers;
* `createCounter`, the closure counter.

The event loop is modelled with a virtual clock: a `SimState` carries the
current time, the list of scheduled timers, the promise's state, and a
counter of how many times the timer callback (the branch on `success`)
has executed.  `advanceTo t` moves the clock to `t` and fires every due
timer, exactly as the host event loop would.
-/

namespace VanillaJS

/-- The payload of a settled promise: `resolve` carries a value,
`reject` carries a reason. -/
inductive Outcome where
  | success (value : String)
  | failure (reason : String)
deriving DecidableEq, Repr

/-- A JS promise is pending until it is settled once. -/
inductive PromiseState where
  | pending
  | settled (outcome : Outcome)
deriving DecidableEq, Repr

/-- The body of fakeFetch's `setTimeout` callback:
`success ? resolve("Data loaded!") : reject("Fetch failed.")`. -/
def fakeFetchCallback (success : Bool) : Outcome :=
  if success then .success "Data loaded!" else .failure "Fetch failed."

/-- A timer scheduled by `setTimeout` inside `fakeFetch`: its absolute
virtual fire time and the `success` flag captured by the closure. -/
structure Timer where
  fireAt : Nat
  flag : Bool
deriving DecidableEq, Repr

/-- The world after a single `fakeFetch` call: the virtual clock, the
pending timers, the returned promise's state, and how many times the
timer callback (which evaluates `success`) has run. -/
structure SimState where
  now : Nat
  timers : List Timer
  promise : PromiseState
  branchEvals : Nat
deriving DecidableEq, Repr

/-- `resolve(v)`: settles the promise as Success if it is still pending;
a no-op on an already settled promise (JS promise semantics). -/
def resolveP (v : String) (st : SimState) : SimState :=
  match st.promise with
  | .pending => { st with promise := .settled (.success v) }
  | .settled _ => st

/-- `reject(r)`: settles the promise as Failure if it is still pending;
a no-op on an already settled promise. -/
def rejectP (r : String) (st : SimState) : SimState :=
  match st.promise with
  | .pending => { st with promise := .settled (.failure r) }
  | .settled _ => st

/-- Firing the timer scheduled by `fakeFetch`: the callback evaluates the
captured `success` flag once and runs
`success ? resolve("Data loaded!") : reject("Fetch failed.")`. -/
def fireCallback (success : Bool) (st : SimState) : SimState :=
  let st1 := { st with branchEvals := st.branchEvals + 1 }
  if success then resolveP "Data loaded!" st1 else rejectP "Fetch failed." st1

/-- `fakeFetch(success = true)` called at virtual time `callTime`: the
`Promise` executor runs synchronously, schedules one 1000 ms timer, and
the call returns with the promise still pending; the callback has not
run when the call returns. -/
def fakeFetch (callTime : Nat) (success : Bool := true) : SimState :=
  { now := callTime
    timers := [⟨callTime + 1000, success⟩]
    promise := .pending
    branchEvals := 0 }

/-- The event loop: advance the virtual clock to `t` and fire every timer
whose deadline has passed, in scheduling order. -/
def advanceTo (t : Nat) (st : SimState) : SimState :=
  let due := st.timers.filter (fun tm => decide (tm.fireAt ≤ t))
  let rest := st.timers.filter (fun tm => ! decide (tm.fireAt ≤ t))
  due.foldl (fun s tm => fireCallback tm.flag s) { st with now := t, timers := rest }

/-- Observing the handle (attaching `.then`, or `await` on an
already-settled promise) reads the recorded state and mutates nothing. -/
def observeHandle (st : SimState) : PromiseState × SimState := (st.promise, st)

/-- The caller usage error of spec §7: an invalid (negative) delay. -/
inductive UsageError where
  | negativeDelay
deriving DecidableEq, Repr

/-- Modelled from the spec: `simulate(succeedsFlag, delayMilliseconds = 1000)`
of §4.2 together with the negative-delay rejection of §4.1/§7 ("reject at
call time, do not silently clamp").  The source's `fakeFetch` has no delay
parameter (it hard-codes 1000 ms) and no validation; the scheduling and
settlement behavior below is `fakeFetch`'s, with the delay generalized. -/
def simulate (succeedsFlag : Bool) (delayMilliseconds : Int := 1000)
    (callTime : Nat := 0) : Except UsageError SimState :=
  if delayMilliseconds < 0 then .error .negativeDelay
  else .ok
    { now := callTime
      timers := [⟨callTime + delayMilliseconds.toNat, succeedsFlag⟩]
      promise := .pending
      branchEvals := 0 }

/-- The timers scheduled by a `simulate` call: a rejected call scheduled
nothing. -/
def scheduledTimers : Except UsageError SimState → List Timer
  | .error _ => []
  | .ok st => st.timers

/-! ## The sequential (async/await) shape

An async function body is modelled denotationally as
`Except String α`: `.ok` is normal completion, `.error r` is the body
aborting with rejection reason `r` (which the host propagates to the
async function's caller as a rejected promise). -/

/-- JS `await` on the outcome a settled promise: Success binds the value,
Failure aborts the async body with the reason. -/
def awaitE (o : Outcome) : Except String String :=
  match o with
  | .success v => .ok v
  | .failure r => .error r

/-- Sequential composition inside an async body: the code `k` following an
aborted step never runs. -/
def andThenE {α β : Type} (x : Except String α) (k : α → Except String β) :
    Except String β :=
  match x with
  | .ok a => k a
  | .error e => .error e

/-- JS `try { body } catch (e) { handler e }` inside an async body. -/
def tryCatchE {α : Type} (body : Except String α)
    (handler : String → Except String α) : Except String α :=
  match body with
  | .ok a => a |> .ok
  | .error e => handler e

/-- `runAsyncTask` from the source, with the literal `true` it passes to
`fakeFetch` generalized to a parameter so both branches of its try/catch
can be examined.  Returns the async function's result to its caller:
`.ok` with the list of printed lines on normal completion. -/
def runAsyncTaskWith (success : Bool) : Except String (List String) :=
  tryCatchE
    (andThenE (awaitE (fakeFetchCallback success)) (fun result =>
      .ok ["Running async task...", "Async success: " ++ result]))
    (fun e => .ok ["Running async task...", "Async error: " ++ e])

/-- `runAsyncTask` as written: it awaits `fakeFetch(true)`. -/
def runAsyncTask : Except String (List String) := runAsyncTaskWith true

/-- `errorHandlingAsyncDemo` from the source, with the literal `false` it
passes to `fakeFetch` generalized to a parameter. -/
def errorHandlingAsyncDemoWith (success : Bool) : Except String (List String) :=
  tryCatchE
    (andThenE (awaitE (fakeFetchCallback success)) (fun _ =>
      .ok ["Error handling in async/await:"]))
    (fun e => .ok ["Error handling in async/await:", "Caught error: " ++ e])

/-- `errorHandlingAsyncDemo` as written: it awaits `fakeFetch(false)`. -/
def errorHandlingAsyncDemo : Except String (List String) :=
  errorHandlingAsyncDemoWith false

/-! ## The closure counter -/

/-- One invocation of the closure returned by `createCounter`:
`count++; return count` — the new closure state and the returned value. -/
def counterCall (count : Nat) : Nat × Nat := (count + 1, count + 1)

/-- The closure state after `n` invocations, starting from
`createCounter`'s `let count = 0`. -/
def counterState : Nat → Nat
  | 0 => 0
  | n + 1 => (counterCall (counterState n)).1

/-- The value returned by the `n`-th invocation (`n ≥ 1`). -/
def counterReturn (n : Nat) : Nat := (counterCall (counterState (n - 1))).2

/-! ## Event-loop lemmas -/

theorem fakeFetchCallback_true :
    fakeFetchCallback true = .success "Data loaded!" := rfl

theorem fakeFetchCallback_false :
    fakeFetchCallback false = .failure "Fetch failed." := rfl

theorem fakeFetchCallback_success_iff (s : Bool) :
    fakeFetchCallback s = .success "Data loaded!" ↔ s = true := by
  cases s <;> simp [fakeFetchCallback]

theorem fakeFetchCallback_failure_iff (s : Bool) :
    fakeFetchCallback s = .failure "Fetch failed." ↔ s = false := by
  cases s <;> simp [fakeFetchCallback]

/-- Advancing past a one-timer state whose timer is not yet due changes
only the clock. -/
theorem advanceTo_one_timer_notdue (t f c b : Nat) (s : Bool)
    (p : PromiseState) (h : ¬ f ≤ t) :
    advanceTo t { now := c, timers := [⟨f, s⟩], promise := p, branchEvals := b }
      = { now := t, timers := [⟨f, s⟩], promise := p, branchEvals := b } := by
  simp [advanceTo, List.filter, h]

/-- Advancing past a one-timer pending state whose timer is due fires the
callback: the timer is consumed, the branch runs once, and the promise
settles according to the captured flag. -/
theorem advanceTo_one_timer_due (t f c b : Nat) (s : Bool) (h : f ≤ t) :
    advanceTo t
        { now := c, timers := [⟨f, s⟩], promise := .pending, branchEvals := b }
      = { now := t, timers := [], promise := .settled (fakeFetchCallback s),
          branchEvals := b + 1 } := by
  cases s <;>
    simp [advanceTo, List.filter, h, fireCallback, resolveP, rejectP,
      fakeFetchCallback]

/-- Advancing a state with no timers changes only the clock. -/
theorem advanceTo_no_timers (t : Nat) (st : SimState) (h : st.timers = []) :
    advanceTo t st = { st with now := t } := by
  simp [advanceTo, h]

/-- `fireCallback` never changes an already settled promise
(`resolve`/`reject` are no-ops once settled). -/
theorem fireCallback_settled (s : Bool) (st : SimState) (o : Outcome)
    (h : st.promise = .settled o) :
    (fireCallback s st).promise = .settled o := by
  cases s <;> simp [fireCallback, resolveP, rejectP, h]

/-- Firing any list of timers never changes an already settled promise. -/
theorem foldl_fireCallback_settled (l : List Timer) (st : SimState)
    (o : Outcome) (h : st.promise = .settled o) :
    (l.foldl (fun s tm => fireCallback tm.flag s) st).promise = .settled o := by
  induction l generalizing st with
  | nil => exact h
  | cons tm l ih =>
      exact ih (fireCallback tm.flag st) (fireCallback_settled tm.flag st o h)

/-- Settled states are terminal: no amount of further event-loop activity
moves a settled promise out of its settled state. -/
theorem advanceTo_settled (t : Nat) (st : SimState) (o : Outcome)
    (h : st.promise = .settled o) :
    (advanceTo t st).promise = .settled o := by
  unfold advanceTo
  exact foldl_fireCallback_settled _ _ o h

/-- Full characterization of the world after `fakeFetch` under a clock
advance: pending with the timer intact strictly before the deadline,
settled by the one callback run at or after it. -/
theorem advanceTo_fakeFetch (t c : Nat) (s : Bool) :
    advanceTo t (fakeFetch c s) =
      if c + 1000 ≤ t then
        { now := t, timers := [], promise := .settled (fakeFetchCallback s),
          branchEvals := 1 }
      else
        { now := t, timers := [⟨c + 1000, s⟩], promise := .pending,
          branchEvals := 0 } := by
  by_cases h : c + 1000 ≤ t
  · rw [if_pos h]
    exact advanceTo_one_timer_due t (c + 1000) c 0 s h
  · rw [if_neg h]
    exact advanceTo_one_timer_notdue t (c + 1000) c 0 s .pending h

theorem counterState_eq (n : Nat) : counterState n = n := by
  induction n with
  | zero => rfl
  | succ n ih => simp [counterState, counterCall, ih]

theorem counterReturn_eq (n : Nat) : counterReturn n = n - 1 + 1 := by
  simp [counterReturn, counterCall, counterState_eq]

/-! ## The claims -/

/-- C1: for every boolean `succeedsFlag` and every delay `d`, the operation
created by `simulate(succeedsFlag, d)` (`fakeFetch` in the code, which
hard-codes `d = 1000`) settles as Success iff `succeedsFlag` is true, and
settles as Failure iff `succeedsFlag` is false. -/
theorem claim1_branch_determinism (flag : Bool) (d : Int) (c t : Nat)
    (st : SimState) (hok : simulate flag d c = .ok st)
    (ht : c + d.toNat ≤ t) :
    ((advanceTo t st).promise = .settled (.success "Data loaded!") ↔ flag = true) ∧
    ((advanceTo t st).promise = .settled (.failure "Fetch failed.") ↔ flag = false) := by
  unfold simulate at hok
  by_cases hd : d < 0
  · rw [if_pos hd] at hok
    cases hok
  · rw [if_neg hd] at hok
    injection hok with hst
    subst hst
    rw [advanceTo_one_timer_due t (c + d.toNat) c 0 flag ht]
    cases flag <;> simp [fakeFetchCallback]

/-- Witness for C1 at `flag = true`, `d = 1000`, observed at `t = 1000`. -/
theorem claim1_witness :
    (advanceTo 1000
        { now := 0, timers := [⟨1000, true⟩], promise := .pending,
          branchEvals := 0 }).promise = .settled (.success "Data loaded!") :=
  ((claim1_branch_determinism true 1000 0 1000 _ rfl (by decide)).1).mpr rfl

/-- C2: `simulate(true, 1000)` eventually yields Success with exactly
"Data loaded!" and `simulate(false, 1000)` Failure with exactly
"Fetch failed."; in each case the Outcome appears only after the 1000 ms
delay (`fakeFetch` with its hard-coded 1000 ms timer). -/
theorem claim2_end_to_end (c t : Nat) :
    (c + 1000 ≤ t →
      (advanceTo t (fakeFetch c true)).promise = .settled (.success "Data loaded!") ∧
      (advanceTo t (fakeFetch c false)).promise = .settled (.failure "Fetch failed.")) ∧
    (t < c + 1000 →
      (advanceTo t (fakeFetch c true)).promise = .pending ∧
      (advanceTo t (fakeFetch c false)).promise = .pending) := by
  constructor
  · intro h
    rw [advanceTo_fakeFetch, advanceTo_fakeFetch, if_pos h, if_pos h]
    exact ⟨rfl, rfl⟩
  · intro h
    rw [advanceTo_fakeFetch, advanceTo_fakeFetch,
      if_neg (show ¬ c + 1000 ≤ t by omega), if_neg (show ¬ c + 1000 ≤ t by omega)]
    exact ⟨rfl, rfl⟩

/-- Witness for C2 at call time 0, observed at 1000 and at 999. -/
theorem claim2_witness :
    (advanceTo 1000 (fakeFetch 0 true)).promise = .settled (.success "Data loaded!") ∧
    (advanceTo 999 (fakeFetch 0 false)).promise = .pending :=
  ⟨((claim2_end_to_end 0 1000).1 (by decide)).1,
   ((claim2_end_to_end 0 999).2 (by decide)).2⟩

/-- C3: a DelayedOperation starts Pending, stays Pending strictly before
its deadline, transitions exactly once into exactly one of the two
Settled states (the one selected by its flag), Settled states are
terminal under any further event-loop activity, and observing the handle
mutates nothing. -/
theorem claim3_single_transition (s : Bool) (c : Nat) :
    (fakeFetch c s).promise = .pending ∧
    (∀ t, t < c + 1000 → (advanceTo t (fakeFetch c s)).promise = .pending) ∧
    (∀ t, c + 1000 ≤ t →
      (advanceTo t (fakeFetch c s)).promise = .settled (fakeFetchCallback s)) ∧
    ((fakeFetchCallback s = .success "Data loaded!" ∧ s = true) ∨
      (fakeFetchCallback s = .failure "Fetch failed." ∧ s = false)) ∧
    (∀ (st : SimState) (o : Outcome) (t : Nat),
      st.promise = .settled o → (advanceTo t st).promise = .settled o) ∧
    (∀ st : SimState, (observeHandle st).2 = st) := by
  refine ⟨rfl, ?_, ?_, ?_, fun st o t h => advanceTo_settled t st o h,
    fun st => rfl⟩
  · intro t ht
    rw [advanceTo_fakeFetch, if_neg (by omega)]
  · intro t ht
    rw [advanceTo_fakeFetch, if_pos ht]
  · cases s
    · exact Or.inr ⟨rfl, rfl⟩
    · exact Or.inl ⟨rfl, rfl⟩

/-- Witness for C3: pending at creation and at 999, settled at 1000, and
still identically settled after a later advance to 2500. -/
theorem claim3_witness :
    (fakeFetch 0 true).promise = .pending ∧
    (advanceTo 999 (fakeFetch 0 true)).promise = .pending ∧
    (advanceTo 2500 (advanceTo 1000 (fakeFetch 0 true))).promise
      = .settled (.success "Data loaded!") := by
  obtain ⟨h1, h2, h3, _, h5, _⟩ := claim3_single_transition true 0
  exact ⟨h1, h2 999 (by decide), h5 _ _ 2500 (h3 1000 (by decide))⟩

/-- C4: in the sequential (async/await) shape, a Failure skips the code
following the `await` (the continuation's result is irrelevant: the body
aborts with the reason, which is exactly what a caller with no catch
hands on to its own caller), a supplied catch branch receives the
reason, and the source's `errorHandlingAsyncDemo` indeed catches
"Fetch failed." this way. -/
theorem claim4_failure_propagation {α : Type} (r : String)
    (k : String → Except String α) (handler : String → Except String α) :
    andThenE (awaitE (.failure r)) k = .error r ∧
    tryCatchE (andThenE (awaitE (.failure r)) k) handler = handler r ∧
    errorHandlingAsyncDemo =
      .ok ["Error handling in async/await:", "Caught error: Fetch failed."] :=
  ⟨rfl, rfl, rfl⟩

/-- C5: replaying an observation on an already-settled handle returns the
identical recorded Outcome, leaves the timer list empty (no new timer),
and does not re-run the branch on `succeedsFlag`. -/
theorem claim5_idempotent_replay (s : Bool) (c t1 t2 : Nat)
    (h1 : c + 1000 ≤ t1) (_h12 : t1 ≤ t2) :
    (observeHandle (advanceTo t2 (advanceTo t1 (fakeFetch c s)))).1
      = (observeHandle (advanceTo t1 (fakeFetch c s))).1 ∧
    (observeHandle (advanceTo t1 (fakeFetch c s))).1
      = .settled (fakeFetchCallback s) ∧
    (advanceTo t2 (advanceTo t1 (fakeFetch c s))).timers
      = (advanceTo t1 (fakeFetch c s)).timers ∧
    (advanceTo t1 (fakeFetch c s)).timers = [] ∧
    (advanceTo t2 (advanceTo t1 (fakeFetch c s))).branchEvals
      = (advanceTo t1 (fakeFetch c s)).branchEvals ∧
    (advanceTo t1 (fakeFetch c s)).branchEvals = 1 := by
  rw [advanceTo_fakeFetch, if_pos h1, advanceTo_no_timers _ _ rfl]
  exact ⟨rfl, rfl, rfl, rfl, rfl, rfl⟩

/-- Witness for C5: settled at 1000, replayed at 2000. -/
theorem claim5_witness :
    (observeHandle (advanceTo 2000 (advanceTo 1000 (fakeFetch 0 true)))).1
      = (observeHandle (advanceTo 1000 (fakeFetch 0 true))).1 ∧
    (advanceTo 2000 (advanceTo 1000 (fakeFetch 0 true))).branchEvals
      = (advanceTo 1000 (fakeFetch 0 true)).branchEvals :=
  ⟨(claim5_idempotent_replay true 0 1000 2000 (by decide) (by decide)).1,
   (claim5_idempotent_replay true 0 1000 2000 (by decide) (by decide)).2.2.2.2.1⟩

/-- C6: for every negative delay (of which `simulate(true, -5)` is an
instance) and every flag, the call is rejected with UsageError
synchronously (the error is the immediate value of the call itself) and
schedules no timer; the negative delay is never clamped into a scheduled
operation. -/
theorem claim6_negative_delay_rejection (flag : Bool) (d : Int) (c : Nat)
    (hd : d < 0) :
    simulate flag d c = .error .negativeDelay ∧
    scheduledTimers (simulate flag d c) = [] := by
  unfold simulate
  rw [if_pos hd]
  exact ⟨rfl, rfl⟩

/-- Witness for C6 at the claim's example `simulate(true, -5)`. -/
theorem claim6_witness :
    simulate true (-5) 0 = .error .negativeDelay ∧
    scheduledTimers (simulate true (-5) 0) = [] :=
  claim6_negative_delay_rejection true (-5) 0 (by decide)

/-- C7: when `fakeFetch` returns, its callback has not run (promise
pending, zero branch evaluations); the Outcome is unobservable strictly
before the 1000 ms delay has elapsed, and is settled (the callback
having run exactly once) from the moment it has. -/
theorem claim7_delay_lower_bound (s : Bool) (c t : Nat) :
    (fakeFetch c s).promise = .pending ∧
    (fakeFetch c s).branchEvals = 0 ∧
    (t < c + 1000 →
      (advanceTo t (fakeFetch c s)).promise = .pending ∧
      (advanceTo t (fakeFetch c s)).branchEvals = 0) ∧
    (c + 1000 ≤ t →
      (advanceTo t (fakeFetch c s)).promise = .settled (fakeFetchCallback s) ∧
      (advanceTo t (fakeFetch c s)).branchEvals = 1) := by
  refine ⟨rfl, rfl, ?_, ?_⟩
  · intro h
    rw [advanceTo_fakeFetch, if_neg (by omega)]
    exact ⟨rfl, rfl⟩
  · intro h
    rw [advanceTo_fakeFetch, if_pos h]
    exact ⟨rfl, rfl⟩

/-- Witness for C7 at call time 0, observed at 999 and 1000. -/
theorem claim7_witness :
    (advanceTo 999 (fakeFetch 0 true)).promise = .pending ∧
    (advanceTo 1000 (fakeFetch 0 true)).branchEvals = 1 :=
  ⟨((claim7_delay_lower_bound true 0 999).2.2.1 (by decide)).1,
   ((claim7_delay_lower_bound true 0 1000).2.2.2 (by decide)).2⟩

/-- C8: `fakeFetch()` with no argument is exactly `fakeFetch(true)`
(the `success = true` default), so the handle settles as Success with
"Data loaded!" after the 1000 ms delay and not before. -/
theorem claim8_default_success (c t : Nat) :
    fakeFetch c = fakeFetch c true ∧
    (t < c + 1000 → (advanceTo t (fakeFetch c)).promise = .pending) ∧
    (c + 1000 ≤ t →
      (advanceTo t (fakeFetch c)).promise = .settled (.success "Data loaded!")) := by
  refine ⟨rfl, ?_, ?_⟩
  · intro h
    rw [advanceTo_fakeFetch, if_neg (by omega)]
  · intro h
    rw [advanceTo_fakeFetch, if_pos h]
    exact rfl

/-- Witness for C8 at call time 0, observed at 999 and 1000. -/
theorem claim8_witness :
    (advanceTo 999 (fakeFetch 0)).promise = .pending ∧
    (advanceTo 1000 (fakeFetch 0)).promise = .settled (.success "Data loaded!") :=
  ⟨(claim8_default_success 0 999).2.1 (by decide),
   (claim8_default_success 0 1000).2.2 (by decide)⟩

/-- C9: the closure from `createCounter` starts with `count = 0`, its
`n`-th invocation returns exactly `n`, and successive returns increase
by exactly one. -/
theorem claim9_counter (n : Nat) (h : 1 ≤ n) :
    counterState 0 = 0 ∧
    counterReturn n = n ∧
    counterReturn (n + 1) = counterReturn n + 1 := by
  refine ⟨rfl, ?_, ?_⟩
  · rw [counterReturn_eq]
    omega
  · rw [counterReturn_eq, counterReturn_eq]
    omega

/-- Witness for C9 at the third invocation. -/
theorem claim9_witness : counterReturn 3 = 3 ∧ counterReturn 4 = counterReturn 3 + 1 :=
  ⟨(claim9_counter 3 (by decide)).2.1, (claim9_counter 3 (by decide)).2.2⟩

/-- C10: for either boolean handed to `fakeFetch`, `runAsyncTask` and
`errorHandlingAsyncDemo` complete normally (`.ok`, never a propagated
rejection): their try/catch converts a Failure into the printed error
line. -/
theorem claim10_demos_never_reject (b : Bool) :
    runAsyncTaskWith b =
      .ok (if b then ["Running async task...", "Async success: Data loaded!"]
        else ["Running async task...", "Async error: Fetch failed."]) ∧
    errorHandlingAsyncDemoWith b =
      .ok (if b then ["Error handling in async/await:"]
        else ["Error handling in async/await:", "Caught error: Fetch failed."]) ∧
    runAsyncTask = runAsyncTaskWith true ∧
    errorHandlingAsyncDemo = errorHandlingAsyncDemoWith false := by
  cases b <;> exact ⟨rfl, rfl, rfl, rfl⟩

/-! ## Sanity checks on the event-loop model -/

example : (fakeFetch 0 true).promise = .pending := rfl

example : (advanceTo 1000 (fakeFetch 0 true)).promise
    = .settled (.success "Data loaded!") := rfl

example : (advanceTo 999 (fakeFetch 0 false)).promise = .pending := rfl

example : (advanceTo 1500 (fakeFetch 0 false)).promise
    = .settled (.failure "Fetch failed.") := rfl

end VanillaJS
